import Mathlib

/-!
Verification development for the notebook grading pipeline in
`grade_homework.py`.  The pipeline extracts code cells from a notebook,
gates on an unconfigured-parameter literal, runs the code in a subprocess
with a 240-second timeout, scans the captured stdout for the last
"Ideal point: z = [...]" marker, and maps the relative error of the first
captured number against the target 0.005 to a score in [0, 10].

Numeric values are modelled with exact rationals (the Python code uses
floats; the formulas involved are simple enough that the rational model
is the intended arithmetic).  Strings are modelled with Lean `String`
and `List Char`.
-/

namespace GradeHomework

/-- True when `c` is an ASCII digit or a dot, i.e. the character class
`[0-9.]` of the marker regex. -/
def digitOrDot (c : Char) : Bool := c.isDigit || c = '.'

/-- Whitespace as matched by the regex class `\s` (ASCII part). -/
def isPySpace (c : Char) : Bool :=
  c = ' ' || c = '\t' || c = '\n' || c = '\r' || c = '\x0b' || c = '\x0c'

/-- Does the character list `l` contain `p` as a contiguous sublist?
Models Python's substring containment (`p in l`). -/
def subList (p : List Char) : List Char → Bool
  | [] => p.isEmpty
  | c :: t => p.isPrefixOf (c :: t) || subList p t

/-- Python's `needle in haystack` on strings. -/
def containsSub (haystack needle : String) : Bool :=
  subList needle.data haystack.data

/-! ## Code Extractor (`execute_notebook`, lines 18-26) -/

/-- One notebook cell: a type tag and a text body. -/
structure Cell where
  cell_type : String
  source : String
deriving DecidableEq, Repr

/-- A notebook document: an ordered sequence of cells. -/
structure Notebook where
  cells : List Cell
deriving DecidableEq, Repr

/-- The instructor placeholder sentinel. -/
def placeholderMarker : String := "# YOUR CODE HERE"

/-- Line-wise placeholder replacement on a character list: split on the
newline character, replace each line containing the sentinel by `1`,
and rejoin with newlines. -/
def cleanLines (l : List Char) : List Char :=
  [('\n' : Char)].intercalate
    ((l.splitOn '\n').map fun ln =>
      if subList placeholderMarker.data ln then ['1'] else ln)

/-- Models `re.sub(r".*# YOUR CODE HERE.*", "1", cell.source)`: `.` does not
match a newline, and both `.*` are greedy, so each whole line containing
the sentinel is replaced by the literal `1`. -/
def cleanSource (s : String) : String :=
  String.mk (cleanLines s.data)

/-- The accumulation loop of `execute_notebook` (lines 18-23): starting
from `acc`, append each code cell's cleaned body plus a newline. -/
def extractAux (acc : String) : List Cell → String
  | [] => acc
  | c :: t =>
      if c.cell_type = "code" then
        extractAux (acc ++ cleanSource c.source ++ "\n") t
      else
        extractAux acc t

/-- `full_code` built by `execute_notebook` from the notebook. -/
def extractCode (nb : Notebook) : String :=
  extractAux "" nb.cells

/-- The disallowed unconfigured-parameter literal (line 25). -/
def gateLiteral : String := "n_subproblems = 1"

/-! ## Sandboxed Runner (`execute_notebook`, lines 12-43) -/

/-- Outcome of `open` + `nbformat.read` (lines 12-16): either a parsed
notebook or the exception text. -/
inductive ReadResult where
  | ok (nb : Notebook)
  | err (msg : String)
deriving DecidableEq, Repr

/-- Behaviour of the student program as an opaque process: whether the
launch faults, how long the process runs (seconds), and its exit data.
This is the environment the `subprocess.run` call observes. -/
structure ProcBehavior where
  launchFault : Option String
  runtimeSeconds : ℚ
  returncode : Int
  stdout : String
  stderr : String
deriving DecidableEq, Repr

/-- What `subprocess.run` reports for a process behaviour under a
wall-clock timeout: a launch fault raises some other exception,
running past the timeout raises `TimeoutExpired`, otherwise the process
completes with its exit code and captured streams. -/
inductive SubprocOutcome where
  | completed (returncode : Int) (stdout stderr : String)
  | timedOut
  | fault (msg : String)
deriving DecidableEq, Repr

/-- The timeout passed to `subprocess.run` (line 33), in seconds. -/
def timeoutSeconds : ℚ := 240

/-- The diagnostic of line 16. -/
def readErrMsg (e : String) : String := "Error reading notebook file: " ++ e

/-- The diagnostic of line 26. -/
def gateMsg : String :=
  "The GA parameters were not set. Please complete the configuration in the `run_moead_heatsink` function."

/-- The diagnostic of line 37. -/
def execFailMsg (stderrContent : String) : String :=
  "Code execution failed with an error:\n" ++ stderrContent

/-- The diagnostic of line 41. -/
def timeoutMsg : String := "Code execution timed out after 4 minutes."

/-- The diagnostic of line 43. -/
def unexpectedMsg (m : String) : String :=
  "An unexpected error occurred during execution: " ++ m

/-- Models the `subprocess.run` call with `timeout=timeoutSeconds`. -/
def runProcess (timeoutS : ℚ) (b : ProcBehavior) : SubprocOutcome :=
  match b.launchFault with
  | some m => .fault m
  | none =>
      if timeoutS < b.runtimeSeconds then .timedOut
      else .completed b.returncode b.stdout b.stderr

/-- `execute_notebook` (lines 8-43): returns the `(output, error_message)`
pair.  `read` is the outcome of reading the notebook file and `b` the
behaviour of the student process, consulted only if it is spawned. -/
def execute_notebook (read : ReadResult) (b : ProcBehavior) :
    Option String × Option String :=
  match read with
  | .err e => (none, readErrMsg e)
  | .ok nb =>
      let full_code := extractCode nb
      if containsSub full_code gateLiteral then
        (none, gateMsg)
      else
        match runProcess timeoutSeconds b with
        | .completed rc out errS =>
            if rc ≠ 0 then (none, execFailMsg errS)
            else (some out, none)
        | .timedOut => (none, timeoutMsg)
        | .fault m => (none, unexpectedMsg m)

/-- Whether a run reaches the `subprocess.run` call: the notebook was
read and the configuration gate did not trip (control flow of
lines 12-34). -/
def spawnsSubprocess (read : ReadResult) : Bool :=
  match read with
  | .err _ => false
  | .ok nb => !(containsSub (extractCode nb) gateLiteral)

/-- Number of subprocesses spawned during one run: the straight-line code
spawns at most one and never retries. -/
def spawnCount (read : ReadResult) : Nat :=
  if spawnsSubprocess read then 1 else 0

/-! ## Marker regex (`grade_result`, line 57)

`re.findall(r"Ideal point: z = \[([0-9.]+),\s*([0-9.]+)\]", output,
re.IGNORECASE)`.  The two character classes `[0-9.]+` are greedy and the
characters that must follow them (`,` and `]`) are outside the class, and
`\s*` is followed by a class disjoint from whitespace, so the regex is
matched by maximal munch with no backtracking. -/

/-- Case-insensitive match of the literal pattern `p` as a prefix of `l`;
returns the rest on success. -/
def matchCI : List Char → List Char → Option (List Char)
  | [], l => some l
  | _ :: _, [] => none
  | p :: ps, c :: cs => if p.toLower = c.toLower then matchCI ps cs else none

/-- The literal part of the marker pattern. -/
def markerLit : List Char := "Ideal point: z = [".data

/-- Try to match the whole marker pattern at the head of `l`; on success
return the two captured groups and the rest of the input. -/
def matchAt (l : List Char) : Option (List Char × List Char × List Char) :=
  match matchCI markerLit l with
  | none => none
  | some r0 =>
      let s1 := r0.span digitOrDot
      if s1.1.isEmpty then none else
      match s1.2 with
      | ',' :: r2 =>
          let r3 := r2.dropWhile isPySpace
          let s2 := r3.span digitOrDot
          if s2.1.isEmpty then none else
          match s2.2 with
          | ']' :: r5 => some (s1.1, s2.1, r5)
          | _ => none
      | _ => none

/-- Scanning loop of `re.findall`: try a match at each position, record
non-overlapping matches left to right, resuming after each match.
`fuel` bounds the recursion; it is instantiated with the input length. -/
def findAllAux : Nat → List Char → List (String × String)
  | 0, _ => []
  | _ + 1, [] => []
  | fuel + 1, l@(_ :: t) =>
      match matchAt l with
      | some (g1, g2, rest) => (String.mk g1, String.mk g2) :: findAllAux fuel rest
      | none => findAllAux fuel t

/-- All matches of the marker pattern in `output`, as pairs of captured
groups, in order of occurrence. -/
def findAll (output : String) : List (String × String) :=
  findAllAux output.data.length output.data

/-! ## Numeric parsing and scoring (`grade_result`, lines 45-89) -/

/-- Value of a digit string read in base 10. -/
def digitsToNat (l : List Char) : Nat :=
  l.foldl (fun a c => 10 * a + (c.toNat - 48)) 0

/-- Python's `float()` restricted to strings over `[0-9.]` (the only
strings it is applied to here): it succeeds exactly when the string has
at least one digit and at most one dot. -/
def parseFloat (s : String) : Option ℚ :=
  let l := s.data
  if l.all digitOrDot ∧ l.any Char.isDigit ∧ l.count '.' ≤ 1 then
    match l.splitOn '.' with
    | [ip] => some (digitsToNat ip)
    | [ip, fp] => some (digitsToNat ip + (digitsToNat fp : ℚ) / 10 ^ fp.length)
    | _ => none
  else none

/-- The target for the first objective (line 53). -/
def OPTIMAL_F1 : ℚ := 5 / 1000

/-- The full-credit tolerance (line 54). -/
def TOLERANCE : ℚ := 1 / 10

/-- The relative error of line 69.  `OPTIMAL_F1` is the non-zero literal
`0.005`, so the `float('inf')` guard branch is dead and the division is
total. -/
def relativeError (v : ℚ) : ℚ := |v - OPTIMAL_F1| / OPTIMAL_F1

/-- The piecewise score before rounding (lines 71-77). -/
def rawScore (e : ℚ) : ℚ :=
  if e ≤ TOLERANCE then 10
  else if e < 1 then 10 * (1 - (e - TOLERANCE) / (1 - TOLERANCE))
  else 0

/-- Round to the nearest integer, ties to even (Python's `round`). -/
def roundHalfEven (q : ℚ) : ℤ :=
  let f := q.floor
  let r := q - f
  if r < 1 / 2 then f
  else if 1 / 2 < r then f + 1
  else if f % 2 = 0 then f else f + 1

/-- `round(score, 2)` (line 79). -/
def roundTo2 (q : ℚ) : ℚ := (roundHalfEven (q * 100) : ℚ) / 100

/-- The reported score as a function of the relative error
(lines 71-79). -/
def scoreOfError (e : ℚ) : ℚ := roundTo2 (rawScore e)

/-- Fixed-point rendering of a non-negative rational with `d` decimal
places, used for the feedback template's `:.3f`-style fields. -/
def formatFixed (d : Nat) (q : ℚ) : String :=
  let n := (roundHalfEven (|q| * 10 ^ d)).toNat
  let ip := toString (n / 10 ^ d)
  let fp := toString (n % 10 ^ d)
  let pad := String.mk (List.replicate (d - fp.length) '0')
  let sign := if q < 0 then "-" else ""
  if d = 0 then sign ++ ip else sign ++ ip ++ "." ++ pad ++ fp

/-- The success feedback template of lines 81-87 (numeric fields rendered
with the fixed-point model of Python float formatting). -/
def successFeedback (student_f1 error score : ℚ) : String :=
  "Grading based on the final Thermal Resistance (f1) in the ideal point.\n"
    ++ "Target f1: ~" ++ formatFixed 3 OPTIMAL_F1 ++ "\n"
    ++ "Your Final f1: " ++ formatFixed 3 student_f1 ++ "\n"
    ++ "Error: " ++ formatFixed 2 (error * 100) ++ "%\n"
    ++ "Score: " ++ formatFixed 2 score ++ "/10"

/-- The diagnostic of line 50. -/
def noOutputMsg : String := "Could not get output from the notebook."

/-- The diagnostic of line 60. -/
def noMarkerMsg : String :=
  "Could not find the 'Ideal point: z' in the output. Make sure the algorithm runs to completion."

/-- The diagnostic of line 66. -/
def parseFailMsg : String := "Could not parse the ideal point values from the output."

/-- `grade_result` (lines 45-89): parse the output for the last ideal
point and compute the `(score, feedback)` pair. -/
def grade_result (output : Option String) : ℚ × String :=
  match output with
  | none => (0, noOutputMsg)
  | some out =>
      let found := findAll out
      if found = [] then (0, noMarkerMsg)
      else
        match parseFloat (found.getLastD ("", "")).1 with
        | none => (0, parseFailMsg)
        | some student_f1 =>
            let error := relativeError student_f1
            let score := scoreOfError error
            (score, successFeedback student_f1 error score)

/-! ## Orchestrator (`main`, lines 91-112) -/

/-- One entry of the `tests` array in the report. -/
structure TestEntry where
  name : String
  score : ℚ
  max_score : ℚ
  output : String
deriving DecidableEq, Repr

/-- The JSON-serialisable report printed by `main`. -/
structure TestResult where
  tests : List TestEntry
deriving DecidableEq, Repr

/-- Python truthiness of the optional `error_message` string. -/
def truthy : Option String → Bool
  | none => false
  | some s => s ≠ ""

/-- The test name of line 104. -/
def testName : String := "Heat Sink Multi-Objective Optimization"

/-- `main` (lines 91-112): run the pipeline and build the report. -/
def main (read : ReadResult) (b : ProcBehavior) : TestResult :=
  let r := execute_notebook read b
  let sf :=
    if truthy r.2 then (0, (r.2).getD "")
    else grade_result r.1
  ⟨[⟨testName, sf.1, 10, sf.2⟩]⟩

/-! ## Helper lemmas -/

/-- `Rat.floor` is the floor of the `FloorRing` instance on `ℚ`. -/
lemma ratFloor_eq_floor (q : ℚ) : q.floor = ⌊q⌋ := rfl

lemma roundTo2_ten : roundTo2 10 = 10 := by
  norm_num [roundTo2, roundHalfEven, ratFloor_eq_floor]

lemma roundTo2_zero : roundTo2 0 = 0 := by
  norm_num [roundTo2, roundHalfEven, ratFloor_eq_floor]

/-- On a successfully parsed last match, the grader's score is the score
of the relative error of the parsed value. -/
lemma grade_result_value (out : String) (v : ℚ)
    (h1 : findAll out ≠ [])
    (h2 : parseFloat ((findAll out).getLastD ("", "")).1 = some v) :
    (grade_result (some out)).1 = scoreOfError (relativeError v) := by
  simp only [grade_result, if_neg h1, h2]

lemma scoreOfError_of_le {e : ℚ} (h : e ≤ 1 / 10) : scoreOfError e = 10 := by
  simp only [scoreOfError, rawScore, TOLERANCE]
  rw [if_pos h]
  exact roundTo2_ten

lemma scoreOfError_of_ge {e : ℚ} (h : 1 ≤ e) : scoreOfError e = 0 := by
  simp only [scoreOfError, rawScore, TOLERANCE]
  rw [if_neg (by linarith), if_neg (not_lt.2 h)]
  exact roundTo2_zero

lemma rawScore_mid {e : ℚ} (h1 : 1 / 10 < e) (h2 : e < 1) :
    rawScore e = 10 - (100 / 9) * (e - 1 / 10) := by
  simp only [rawScore, TOLERANCE]
  rw [if_neg (not_le.2 h1), if_pos h2]
  ring

lemma scoreOfError_mid {e : ℚ} (h1 : 1 / 10 < e) (h2 : e < 1) :
    scoreOfError e = roundTo2 (10 * (1 - (e - 1 / 10) / (9 / 10))) := by
  simp only [scoreOfError, rawScore, TOLERANCE]
  rw [if_neg (not_le.2 h1), if_pos h2]
  congr 1
  ring

lemma roundHalfEven_bounds (q : ℚ) :
    ⌊q⌋ ≤ roundHalfEven q ∧ roundHalfEven q ≤ ⌊q⌋ + 1 := by
  simp only [roundHalfEven, ratFloor_eq_floor]
  split_ifs <;> omega

/-- Round-half-to-even is monotone. -/
lemma roundHalfEven_mono {q r : ℚ} (h : q ≤ r) :
    roundHalfEven q ≤ roundHalfEven r := by
  have hf : ⌊q⌋ ≤ ⌊r⌋ := Int.floor_mono h
  rcases eq_or_lt_of_le hf with heq | hlt
  · by_cases hqr : q = r
    · rw [hqr]
    have hfr : q - (⌊q⌋ : ℚ) ≤ r - (⌊q⌋ : ℚ) := by linarith
    simp only [roundHalfEven, ratFloor_eq_floor, ← heq]
    split_ifs <;> first | omega | linarith
  · have b1 := roundHalfEven_bounds q
    have b2 := roundHalfEven_bounds r
    omega

lemma roundTo2_mono {q r : ℚ} (h : q ≤ r) : roundTo2 q ≤ roundTo2 r := by
  rw [roundTo2, roundTo2]
  have : roundHalfEven (q * 100) ≤ roundHalfEven (r * 100) :=
    roundHalfEven_mono (by linarith)
  exact (div_le_div_iff_of_pos_right (by norm_num)).2 (Int.cast_le.2 this)

/-- A string with a non-empty prefix is non-empty. -/
lemma append_ne_empty_left (a b : String) (ha : a ≠ "") : a ++ b ≠ "" := by
  intro h
  apply ha
  have hd : a.data ++ b.data = [] := by
    have := congrArg String.data h
    rwa [String.data_append] at this
  exact String.ext (List.append_eq_nil.mp hd).1

/-- Reduction of `main` on a run whose `error_message` is a non-empty
string: the report carries score 0 and that message. -/
lemma main_failure {read : ReadResult} {b : ProcBehavior} {msg : String}
    (h2 : (execute_notebook read b).2 = some msg) (hne : msg ≠ "") :
    main read b = ⟨[⟨testName, 0, 10, msg⟩]⟩ := by
  simp only [main, h2, truthy, Option.getD_some]
  rw [if_pos (by simpa using hne)]

/-- Reduction of `main` on a successful run: the report carries the
grader's score and feedback on the captured stdout. -/
lemma main_success {read : ReadResult} {b : ProcBehavior} {out : String}
    (h : execute_notebook read b = (some out, none)) :
    main read b =
      ⟨[⟨testName, (grade_result (some out)).1, 10, (grade_result (some out)).2⟩]⟩ := by
  simp only [main, h, truthy, Bool.false_eq_true, if_false]

lemma exec_gate {nb : Notebook} {b : ProcBehavior}
    (hg : containsSub (extractCode nb) gateLiteral = true) :
    execute_notebook (.ok nb) b = (none, some gateMsg) := by
  simp only [execute_notebook, hg, if_true]

lemma exec_timeout {nb : Notebook} {b : ProcBehavior}
    (hg : containsSub (extractCode nb) gateLiteral = false)
    (hl : b.launchFault = none) (ht : timeoutSeconds < b.runtimeSeconds) :
    execute_notebook (.ok nb) b = (none, some timeoutMsg) := by
  simp only [execute_notebook, hg, Bool.false_eq_true, if_false, runProcess, hl]
  rw [if_pos ht]

lemma exec_fault {nb : Notebook} {b : ProcBehavior} {m : String}
    (hg : containsSub (extractCode nb) gateLiteral = false)
    (hl : b.launchFault = some m) :
    execute_notebook (.ok nb) b = (none, some (unexpectedMsg m)) := by
  simp only [execute_notebook, hg, Bool.false_eq_true, if_false, runProcess, hl]

lemma exec_nonzero {nb : Notebook} {b : ProcBehavior}
    (hg : containsSub (extractCode nb) gateLiteral = false)
    (hl : b.launchFault = none) (ht : ¬ timeoutSeconds < b.runtimeSeconds)
    (hr : b.returncode ≠ 0) :
    execute_notebook (.ok nb) b = (none, some (execFailMsg b.stderr)) := by
  simp only [execute_notebook, hg, Bool.false_eq_true, if_false, runProcess, hl]
  rw [if_neg ht]
  simp only [if_pos hr]

lemma exec_zero {nb : Notebook} {b : ProcBehavior}
    (hg : containsSub (extractCode nb) gateLiteral = false)
    (hl : b.launchFault = none) (ht : ¬ timeoutSeconds < b.runtimeSeconds)
    (hr : b.returncode = 0) :
    execute_notebook (.ok nb) b = (some b.stdout, none) := by
  simp only [execute_notebook, hg, Bool.false_eq_true, if_false, runProcess, hl]
  rw [if_neg ht]
  simp only [hr, ne_eq, not_true_eq_false, if_false, ite_false]

/-- Evaluation rule for `parseFloat` on a guarded two-part digit string. -/
lemma parseFloat_eval (s : String) (ip fp : List Char) (a b : ℕ)
    (hg : s.data.all digitOrDot = true ∧ s.data.any Char.isDigit = true ∧
      s.data.count '.' ≤ 1)
    (hs : s.data.splitOn '.' = [ip, fp])
    (ha : digitsToNat ip = a) (hb : digitsToNat fp = b) :
    parseFloat s = some ((a : ℚ) + (b : ℚ) / 10 ^ fp.length) := by
  rw [parseFloat, if_pos hg, hs]
  show some ((digitsToNat ip : ℚ) + (digitsToNat fp : ℚ) / 10 ^ fp.length)
    = some ((a : ℚ) + (b : ℚ) / 10 ^ fp.length)
  rw [ha, hb]

lemma parseFloatEval_0050 : parseFloat "0.0050" = some (1 / 200) := by
  have h := parseFloat_eval "0.0050" ['0'] ['0', '0', '5', '0'] 0 50
    (by decide) (by decide) (by decide) (by decide)
  rw [h]
  norm_num

lemma parseFloatEval_0055 : parseFloat "0.0055" = some (11 / 2000) := by
  have h := parseFloat_eval "0.0055" ['0'] ['0', '0', '5', '5'] 0 55
    (by decide) (by decide) (by decide) (by decide)
  rw [h]
  norm_num

lemma parseFloatEval_0075 : parseFloat "0.0075" = some (3 / 400) := by
  have h := parseFloat_eval "0.0075" ['0'] ['0', '0', '7', '5'] 0 75
    (by decide) (by decide) (by decide) (by decide)
  rw [h]
  norm_num

lemma parseFloatEval_00750005 :
    parseFloat "0.00750005" = some (150001 / 20000000) := by
  have h := parseFloat_eval "0.00750005" ['0']
    ['0', '0', '7', '5', '0', '0', '0', '5'] 0 750005
    (by decide) (by decide) (by decide) (by decide)
  rw [h]
  norm_num

lemma relErrEval_0050 : relativeError (1 / 200) = 0 := by
  rw [relativeError, OPTIMAL_F1]
  norm_num

lemma relErrEval_0055 : relativeError (11 / 2000) = 1 / 10 := by
  rw [relativeError, OPTIMAL_F1, abs_of_nonneg (by norm_num)]
  norm_num

lemma relErrEval_0075 : relativeError (3 / 400) = 1 / 2 := by
  rw [relativeError, OPTIMAL_F1, abs_of_nonneg (by norm_num)]
  norm_num

lemma relErrEval_00750005 :
    relativeError (150001 / 20000000) = 50001 / 100000 := by
  rw [relativeError, OPTIMAL_F1, abs_of_nonneg (by norm_num)]
  norm_num

lemma scoreEval_half : scoreOfError (1 / 2) = 139 / 25 := by
  norm_num [scoreOfError, rawScore, TOLERANCE, roundTo2, roundHalfEven,
    ratFloor_eq_floor]

lemma scoreEval_half' : scoreOfError (50001 / 100000) = 139 / 25 := by
  norm_num [scoreOfError, rawScore, TOLERANCE, roundTo2, roundHalfEven,
    ratFloor_eq_floor]

/-- Pieces produced by `splitOnP p` contain no element satisfying `p`. -/
lemma not_sat_of_mem_splitOnP {α : Type} (p : α → Bool) :
    ∀ xs : List α, ∀ ys ∈ xs.splitOnP p, ∀ a ∈ ys, ¬ p a = true := by
  intro xs
  induction xs with
  | nil =>
      intro ys hys a ha
      rw [List.splitOnP_nil] at hys
      rcases List.mem_singleton.mp hys with rfl
      simp at ha
  | cons x xs ih =>
      intro ys hys a ha
      rw [List.splitOnP_cons] at hys
      by_cases hx : p x = true
      · rw [if_pos hx] at hys
        rcases List.mem_cons.mp hys with rfl | hys'
        · simp at ha
        · exact ih ys hys' a ha
      · rw [if_neg hx] at hys
        cases hsp : xs.splitOnP p with
        | nil => exact absurd hsp (List.splitOnP_ne_nil p xs)
        | cons hd tl =>
            rw [hsp] at hys
            simp only [List.modifyHead] at hys
            rcases List.mem_cons.mp hys with rfl | hys'
            · rcases List.mem_cons.mp ha with rfl | ha'
              · exact hx
              · exact ih hd (hsp ▸ List.mem_cons_self hd tl) a ha'
            · exact ih ys (hsp ▸ List.mem_cons_of_mem hd hys') a ha

/-- The separator does not occur in any piece of `splitOn`. -/
lemma not_mem_of_mem_splitOn {α : Type} [DecidableEq α] (x : α)
    (xs : List α) (ys : List α) (hys : ys ∈ xs.splitOn x) : x ∉ ys := by
  intro hx
  exact not_sat_of_mem_splitOnP (· == x) xs ys hys x hx (by simp)

/-- `splitOn` never returns the empty list of pieces. -/
lemma splitOn_ne_nil {α : Type} [DecidableEq α] (x : α) (xs : List α) :
    xs.splitOn x ≠ [] := List.splitOnP_ne_nil _ xs

/-- The line decomposition of `cleanLines`: split on newlines, the result
is the line list of the input with marker lines replaced by `1`. -/
lemma cleanLines_splitOn (l : List Char) :
    (cleanLines l).splitOn '\n' =
      (l.splitOn '\n').map fun ln =>
        if subList placeholderMarker.data ln then ['1'] else ln := by
  rw [cleanLines]
  apply List.splitOn_intercalate
  · intro piece hp
    rcases List.mem_map.mp hp with ⟨ln, hln, rfl⟩
    by_cases hm : subList placeholderMarker.data ln
    · rw [if_pos hm]
      decide
    · rw [if_neg hm]
      exact not_mem_of_mem_splitOn _ _ _ hln
  · intro h
    exact splitOn_ne_nil '\n' l (List.map_eq_nil_iff.mp h)

/-- Character-level contents of the accumulated `full_code`. -/
lemma extractAux_data (cells : List Cell) :
    ∀ acc : String, (extractAux acc cells).data =
      acc.data ++
        ((cells.filter fun c => c.cell_type == "code").map
          fun c => (cleanSource c.source).data ++ ['\n']).flatten := by
  induction cells with
  | nil => intro acc; simp [extractAux]
  | cons c t ih =>
      intro acc
      by_cases hc : c.cell_type = "code"
      · rw [extractAux, if_pos hc, ih]
        simp [List.filter_cons, hc]
      · rw [extractAux, if_neg hc, ih]
        simp [List.filter_cons, hc]

lemma all_takeWhile {α : Type} (p : α → Bool) (l : List α) :
    (l.takeWhile p).all p = true := by
  rw [List.all_eq_true]
  intro x hx
  exact List.mem_takeWhile_imp hx

/-- Both captured groups of a successful marker match consist of
characters from the class `[0-9.]`. -/
lemma matchAt_groups {l g1 g2 rest : List Char}
    (h : matchAt l = some (g1, g2, rest)) :
    g1.all digitOrDot = true ∧ g2.all digitOrDot = true := by
  rw [matchAt] at h
  cases hm : matchCI markerLit l with
  | none => rw [hm] at h; cases h
  | some r0 =>
      rw [hm] at h
      simp only [List.span_eq_take_drop] at h
      by_cases h1 : (r0.takeWhile digitOrDot).isEmpty
      · rw [if_pos h1] at h; cases h
      · rw [if_neg h1] at h
        cases hd1 : r0.dropWhile digitOrDot with
        | nil => rw [hd1] at h; cases h
        | cons c2 r2 =>
            rw [hd1] at h
            by_cases hc2 : c2 = ','
            · subst hc2
              simp only at h
              by_cases h2 :
                  ((r2.dropWhile isPySpace).takeWhile digitOrDot).isEmpty
              · rw [if_pos h2] at h; cases h
              · rw [if_neg h2] at h
                cases hd2 : (r2.dropWhile isPySpace).dropWhile digitOrDot with
                | nil => rw [hd2] at h; cases h
                | cons c5 r5 =>
                    rw [hd2] at h
                    by_cases hc5 : c5 = ']'
                    · subst hc5
                      simp only [Option.some.injEq, Prod.mk.injEq] at h
                      obtain ⟨hg1, hg2, -⟩ := h
                      subst hg1; subst hg2
                      exact ⟨all_takeWhile _ _, all_takeWhile _ _⟩
                    · rw [show (c5 :: r5 : List Char) = c5 :: r5 from rfl] at h
                      revert h
                      split
                      · rename_i heq
                        intro h
                        cases heq
                        exact absurd rfl hc5
                      · intro h; cases h
            · revert h
              split
              · rename_i heq
                intro h
                cases heq
                exact absurd rfl hc2
              · intro h; cases h

/-- Every match produced by the scanning loop has digit-or-dot groups. -/
lemma findAllAux_groups :
    ∀ (fuel : Nat) (l : List Char) (p : String × String),
      p ∈ findAllAux fuel l →
      p.1.data.all digitOrDot = true ∧ p.2.data.all digitOrDot = true := by
  intro fuel
  induction fuel with
  | zero => intro l p hp; cases hp
  | succ n ih =>
      intro l p hp
      cases l with
      | nil => cases hp
      | cons c t =>
          rw [findAllAux] at hp
          cases hm : matchAt (c :: t) with
          | none => rw [hm] at hp; exact ih t p hp
          | some g =>
              obtain ⟨g1, g2, rest⟩ := g
              rw [hm] at hp
              rcases List.mem_cons.mp hp with rfl | hp'
              · exact matchAt_groups hm
              · exact ih rest p hp'

lemma grade_result_noMarker {out : String} (h : findAll out = []) :
    grade_result (some out) = (0, noMarkerMsg) := by
  simp [grade_result, h]

lemma grade_result_parseFail {out : String} (h1 : findAll out ≠ [])
    (h2 : parseFloat ((findAll out).getLastD ("", "")).1 = none) :
    grade_result (some out) = (0, parseFailMsg) := by
  simp only [grade_result, if_neg h1, h2]

/-! ## Claims -/

/-- C1: for every successfully parsed student value `v`, with relative
error `e = |v - 0.005| / 0.005`, the grader's score is 10 when
`e ≤ 0.10`, is `10 * (1 - (e - 0.10) / 0.90)` rounded to 2 decimal places
when `0.10 < e < 1`, and is 0 when `e ≥ 1`. -/
theorem C1_piecewise_score (out : String) (v e : ℚ)
    (h1 : findAll out ≠ [])
    (h2 : parseFloat ((findAll out).getLastD ("", "")).1 = some v)
    (he : e = |v - 5 / 1000| / (5 / 1000)) :
    (grade_result (some out)).1 =
      roundTo2 (if e ≤ 1 / 10 then 10
        else if e < 1 then 10 * (1 - (e - 1 / 10) / (9 / 10)) else 0) ∧
    (e ≤ 1 / 10 → (grade_result (some out)).1 = 10) ∧
    (1 ≤ e → (grade_result (some out)).1 = 0) := by
  have hv : relativeError v = e := by
    rw [relativeError, OPTIMAL_F1]
    exact he.symm
  have hg := grade_result_value out v h1 h2
  rw [hg, hv]
  refine ⟨?_, fun h => scoreOfError_of_le h, fun h => scoreOfError_of_ge h⟩
  by_cases hle : e ≤ 1 / 10
  · rw [if_pos hle, scoreOfError_of_le hle, roundTo2_ten]
  · by_cases hlt : e < 1
    · rw [if_neg hle, if_pos hlt, scoreOfError_mid (not_le.mp hle) hlt]
    · rw [if_neg hle, if_neg hlt, scoreOfError_of_ge (not_lt.mp hlt),
        roundTo2_zero]

/-- Witness for C1 at the output `Ideal point: z = [0.0075, 1]`
(relative error 1/2, middle branch of the piecewise function). -/
theorem C1_piecewise_score_witness :
    (grade_result (some "Ideal point: z = [0.0075, 1]")).1 =
      roundTo2 (if (1 / 2 : ℚ) ≤ 1 / 10 then 10
        else if (1 / 2 : ℚ) < 1 then 10 * (1 - (1 / 2 - 1 / 10) / (9 / 10))
        else 0) := by
  refine (C1_piecewise_score "Ideal point: z = [0.0075, 1]" (3 / 400) (1 / 2)
    (by decide) ?_ ?_).1
  · have h : ((findAll "Ideal point: z = [0.0075, 1]").getLastD ("", "")).1
        = "0.0075" := by decide
    rw [h]
    exact parseFloatEval_0075
  · exact relErrEval_0075.symm

/-- C2: every failure mode of the pipeline (unreadable notebook,
configuration gate, timeout, non-zero exit, launch fault, marker not
found, unparsable value) yields a report with score 0 and the failure
message as feedback, and every run produces a single well-formed test
entry. -/
theorem C2_always_reports (read : ReadResult) (b : ProcBehavior) :
    ((main read b).tests.length = 1 ∧
      ∀ t ∈ (main read b).tests, t.max_score = 10 ∧ t.name = testName) ∧
    (∀ e, read = .err e →
      main read b = ⟨[⟨testName, 0, 10, readErrMsg e⟩]⟩) ∧
    (∀ nb, read = .ok nb → containsSub (extractCode nb) gateLiteral = true →
      main read b = ⟨[⟨testName, 0, 10, gateMsg⟩]⟩) ∧
    (∀ nb, read = .ok nb → containsSub (extractCode nb) gateLiteral = false →
      b.launchFault = none → timeoutSeconds < b.runtimeSeconds →
      main read b = ⟨[⟨testName, 0, 10, timeoutMsg⟩]⟩) ∧
    (∀ nb, read = .ok nb → containsSub (extractCode nb) gateLiteral = false →
      b.launchFault = none → ¬ timeoutSeconds < b.runtimeSeconds →
      b.returncode ≠ 0 →
      main read b = ⟨[⟨testName, 0, 10, execFailMsg b.stderr⟩]⟩) ∧
    (∀ nb m, read = .ok nb → containsSub (extractCode nb) gateLiteral = false →
      b.launchFault = some m →
      main read b = ⟨[⟨testName, 0, 10, unexpectedMsg m⟩]⟩) ∧
    (∀ nb, read = .ok nb → containsSub (extractCode nb) gateLiteral = false →
      b.launchFault = none → ¬ timeoutSeconds < b.runtimeSeconds →
      b.returncode = 0 → findAll b.stdout = [] →
      main read b = ⟨[⟨testName, 0, 10, noMarkerMsg⟩]⟩) ∧
    (∀ nb, read = .ok nb → containsSub (extractCode nb) gateLiteral = false →
      b.launchFault = none → ¬ timeoutSeconds < b.runtimeSeconds →
      b.returncode = 0 → findAll b.stdout ≠ [] →
      parseFloat ((findAll b.stdout).getLastD ("", "")).1 = none →
      main read b = ⟨[⟨testName, 0, 10, parseFailMsg⟩]⟩) := by
  refine ⟨⟨rfl, ?_⟩, ?_, ?_, ?_, ?_, ?_, ?_, ?_⟩
  · intro t ht
    cases ht with
    | head => exact ⟨rfl, rfl⟩
    | tail _ h => cases h
  · rintro e rfl
    exact main_failure rfl
      (by show readErrMsg e ≠ ""
          exact append_ne_empty_left _ _ (by decide))
  · rintro nb rfl hg
    exact main_failure (by rw [exec_gate hg]) (by decide)
  · rintro nb rfl hg hl ht
    exact main_failure (by rw [exec_timeout hg hl ht]) (by decide)
  · rintro nb rfl hg hl ht hr
    refine main_failure (by rw [exec_nonzero hg hl ht hr]) ?_
    show ("Code execution failed with an error:\n" ++ b.stderr) ≠ ""
    exact append_ne_empty_left _ _ (by decide)
  · rintro nb m rfl hg hl
    refine main_failure (by rw [exec_fault hg hl]) ?_
    show ("An unexpected error occurred during execution: " ++ m) ≠ ""
    exact append_ne_empty_left _ _ (by decide)
  · rintro nb rfl hg hl ht hr hfa
    rw [main_success (exec_zero hg hl ht hr), grade_result_noMarker hfa]
  · rintro nb rfl hg hl ht hr hfa hpf
    rw [main_success (exec_zero hg hl ht hr), grade_result_parseFail hfa hpf]

/-- Witness for C2 on an unreadable notebook. -/
theorem C2_always_reports_witness :
    main (.err "missing") ⟨none, 0, 0, "", ""⟩ =
      ⟨[⟨testName, 0, 10, readErrMsg "missing"⟩]⟩ :=
  (C2_always_reports (.err "missing") ⟨none, 0, 0, "", ""⟩).2.1 "missing" rfl

/-- C3: the grader's student value is the first captured number of the
last marker match; in the two-marker scenario `[0.01, ...]` then
`[0.0055, ...]` the second match is used, the relative error is 10% and
the score is 10 (boundary inclusive). -/
theorem C3_last_match :
    (∀ (out : String) (v : ℚ), findAll out ≠ [] →
      parseFloat ((findAll out).getLastD ("", "")).1 = some v →
      (grade_result (some out)).1 = scoreOfError (relativeError v)) ∧
    findAll "Ideal point: z = [0.01, 0.2]\nIdeal point: z = [0.0055, 0.2]" =
      [("0.01", "0.2"), ("0.0055", "0.2")] ∧
    ((findAll "Ideal point: z = [0.01, 0.2]\nIdeal point: z = [0.0055, 0.2]"
      ).getLastD ("", "")).1 = "0.0055" ∧
    parseFloat "0.0055" = some (11 / 2000) ∧
    relativeError (11 / 2000) = 1 / 10 ∧
    (grade_result
      (some "Ideal point: z = [0.01, 0.2]\nIdeal point: z = [0.0055, 0.2]")).1
      = 10 := by
  refine ⟨fun out v h1 h2 => grade_result_value out v h1 h2, by decide,
    by decide, parseFloatEval_0055, relErrEval_0055, ?_⟩
  have h1 : findAll
      "Ideal point: z = [0.01, 0.2]\nIdeal point: z = [0.0055, 0.2]" ≠ [] := by
    decide
  have h2 : parseFloat ((findAll
      "Ideal point: z = [0.01, 0.2]\nIdeal point: z = [0.0055, 0.2]"
      ).getLastD ("", "")).1 = some (11 / 2000) := by
    have h : ((findAll
        "Ideal point: z = [0.01, 0.2]\nIdeal point: z = [0.0055, 0.2]"
        ).getLastD ("", "")).1 = "0.0055" := by decide
    rw [h]
    exact parseFloatEval_0055
  rw [grade_result_value _ _ h1 h2, relErrEval_0055,
    scoreOfError_of_le (by norm_num)]

/-- Witness for C3 on a single-marker output with an exact value. -/
theorem C3_last_match_witness :
    (grade_result (some "Ideal point: z = [0.0050, 0.123]")).1 = 10 := by
  have h2 : parseFloat ((findAll "Ideal point: z = [0.0050, 0.123]"
      ).getLastD ("", "")).1 = some (1 / 200) := by
    have h : ((findAll "Ideal point: z = [0.0050, 0.123]"
        ).getLastD ("", "")).1 = "0.0050" := by decide
    rw [h]
    exact parseFloatEval_0050
  rw [C3_last_match.1 "Ideal point: z = [0.0050, 0.123]" (1 / 200)
    (by decide) h2, relErrEval_0050, scoreOfError_of_le (by norm_num)]

/-- C4: the extracted program is the concatenation, in document order, of
the cleaned bodies of the code cells, each followed by a newline; each
line containing the sentinel is replaced by the literal `1`; extraction
is deterministic. -/
theorem C4_extraction :
    (∀ nb : Notebook, (extractCode nb).data =
      ((nb.cells.filter fun c => c.cell_type == "code").map
        fun c => (cleanSource c.source).data ++ ['\n']).flatten) ∧
    (∀ s : String, (cleanSource s).data.splitOn '\n' =
      (s.data.splitOn '\n').map fun ln =>
        if subList placeholderMarker.data ln then ['1'] else ln) ∧
    extractCode ⟨[⟨"code", "x = 0 # YOUR CODE HERE\ny = 2"⟩,
      ⟨"markdown", "# YOUR CODE HERE"⟩]⟩ = "1\ny = 2\n" ∧
    (∀ nb1 nb2 : Notebook, nb1 = nb2 → extractCode nb1 = extractCode nb2) := by
  refine ⟨fun nb => ?_, fun s => ?_, by decide, fun nb1 nb2 h => h ▸ rfl⟩
  · rw [extractCode]
    exact extractAux_data nb.cells ""
  · rw [cleanSource]
    exact cleanLines_splitOn s.data

/-- Witness for C4: determinism instantiated on a concrete notebook. -/
theorem C4_extraction_witness :
    extractCode ⟨[⟨"code", "a = 2# YOUR CODE HERE\nb = 3"⟩]⟩ =
      extractCode ⟨[⟨"code", "a = 2# YOUR CODE HERE\nb = 3"⟩]⟩ :=
  C4_extraction.2.2.2 _ _ rfl

/-- C5: when the extracted program contains the unconfigured-parameter
literal, the pipeline short-circuits: score 0, configuration feedback, and
no subprocess is spawned (the result is independent of the process
behaviour). -/
theorem C5_config_gate (nb : Notebook) (b : ProcBehavior)
    (h : containsSub (extractCode nb) gateLiteral = true) :
    execute_notebook (.ok nb) b = (none, some gateMsg) ∧
    main (.ok nb) b = ⟨[⟨testName, 0, 10, gateMsg⟩]⟩ ∧
    containsSub gateMsg "configuration" = true ∧
    spawnsSubprocess (.ok nb) = false ∧
    ∀ b' : ProcBehavior,
      execute_notebook (.ok nb) b' = execute_notebook (.ok nb) b := by
  refine ⟨exec_gate h, main_failure (by rw [exec_gate h]) (by decide),
    by decide, ?_, fun b' => by rw [exec_gate h, exec_gate h]⟩
  simp [spawnsSubprocess, h]

/-- Witness for C5 on a notebook leaving `n_subproblems = 1` in place. -/
theorem C5_config_gate_witness :
    execute_notebook (.ok ⟨[⟨"code", "n_subproblems = 1"⟩]⟩)
      ⟨none, 0, 0, "", ""⟩ = (none, some gateMsg) :=
  (C5_config_gate ⟨[⟨"code", "n_subproblems = 1"⟩]⟩ ⟨none, 0, 0, "", ""⟩
    (by decide)).1

/-- C6: a run whose subprocess exceeds the fixed 240-second timeout is
terminated and reported as the timeout failure: score 0, feedback
mentioning the timeout, one subprocess spawned and never retried. -/
theorem C6_timeout (nb : Notebook) (b : ProcBehavior)
    (hg : containsSub (extractCode nb) gateLiteral = false)
    (hl : b.launchFault = none) (ht : timeoutSeconds < b.runtimeSeconds) :
    execute_notebook (.ok nb) b = (none, some timeoutMsg) ∧
    main (.ok nb) b = ⟨[⟨testName, 0, 10, timeoutMsg⟩]⟩ ∧
    containsSub timeoutMsg "timed out" = true ∧
    timeoutSeconds = 240 ∧
    spawnCount (.ok nb) ≤ 1 := by
  refine ⟨exec_timeout hg hl ht,
    main_failure (by rw [exec_timeout hg hl ht]) (by decide), by decide,
    rfl, ?_⟩
  rw [spawnCount]
  split_ifs <;> omega

/-- Witness for C6 on a 241-second run. -/
theorem C6_timeout_witness :
    execute_notebook (.ok ⟨[⟨"code", "x = 1"⟩]⟩) ⟨none, 241, 0, "", ""⟩ =
      (none, some timeoutMsg) :=
  (C6_timeout ⟨[⟨"code", "x = 1"⟩]⟩ ⟨none, 241, 0, "", ""⟩ (by decide) rfl
    (by norm_num [timeoutSeconds])).1

/-- Counterexample to C7 as stated: on a non-zero exit with stderr
`boom`, the diagnostic message is not the stderr content itself but a
header line followed by it. -/
theorem C7_counterexample :
    (execute_notebook (.ok ⟨[⟨"code", "x = 1"⟩]⟩)
        ⟨none, 0, 1, "", "boom"⟩).2 =
      some ("Code execution failed with an error:\n" ++ "boom") ∧
    (execute_notebook (.ok ⟨[⟨"code", "x = 1"⟩]⟩)
        ⟨none, 0, 1, "", "boom"⟩).2 ≠ some "boom" := by
  decide

/-- C7 (amended): on a non-zero exit the Runner returns a Failure whose
diagnostic is the fixed header `Code execution failed with an error:`
followed by the captured stderr verbatim, and the report carries score 0
with that diagnostic. -/
theorem C7_stderr_surfaced (nb : Notebook) (b : ProcBehavior)
    (hg : containsSub (extractCode nb) gateLiteral = false)
    (hl : b.launchFault = none) (ht : ¬ timeoutSeconds < b.runtimeSeconds)
    (hr : b.returncode ≠ 0) :
    execute_notebook (.ok nb) b = (none, some (execFailMsg b.stderr)) ∧
    execFailMsg b.stderr =
      "Code execution failed with an error:\n" ++ b.stderr ∧
    main (.ok nb) b = ⟨[⟨testName, 0, 10, execFailMsg b.stderr⟩]⟩ := by
  refine ⟨exec_nonzero hg hl ht hr, rfl,
    main_failure (by rw [exec_nonzero hg hl ht hr]) ?_⟩
  show ("Code execution failed with an error:\n" ++ b.stderr) ≠ ""
  exact append_ne_empty_left _ _ (by decide)

/-- Witness for C7 (amended) on a crashing run with stderr `boom`. -/
theorem C7_stderr_surfaced_witness :
    execute_notebook (.ok ⟨[⟨"code", "x = 1"⟩]⟩) ⟨none, 0, 1, "", "boom"⟩ =
      (none, some (execFailMsg "boom")) :=
  (C7_stderr_surfaced ⟨[⟨"code", "x = 1"⟩]⟩ ⟨none, 0, 1, "", "boom"⟩
    (by decide) rfl (by norm_num [timeoutSeconds]) (by decide)).1

/-- C8: a Success output without any marker match is graded 0 with the
could-not-find-marker feedback, and one whose last match's first number
does not parse is graded 0 with the could-not-parse feedback. -/
theorem C8_parse_failures (out : String) :
    (findAll out = [] → grade_result (some out) = (0, noMarkerMsg)) ∧
    (findAll out ≠ [] →
      parseFloat ((findAll out).getLastD ("", "")).1 = none →
      grade_result (some out) = (0, parseFailMsg)) :=
  ⟨fun h => grade_result_noMarker h, fun h1 h2 => grade_result_parseFail h1 h2⟩

/-- Witness for C8 on a marker-free output and on a dots-only capture. -/
theorem C8_parse_failures_witness :
    grade_result (some "no ideal point here") = (0, noMarkerMsg) ∧
    grade_result (some "Ideal point: z = [..., 1]") = (0, parseFailMsg) :=
  ⟨(C8_parse_failures "no ideal point here").1 (by decide),
    (C8_parse_failures "Ideal point: z = [..., 1]").2 (by decide) (by decide)⟩

/-- Counterexample to C9 as stated: the final reported (rounded) score is
not strictly decreasing on the open interval: the errors 1/2 and
50001/100000 both report 5.56. -/
theorem C9_counterexample :
    relativeError (3 / 400) = 1 / 2 ∧
    relativeError (150001 / 20000000) = 50001 / 100000 ∧
    (1 / 10 : ℚ) < 1 / 2 ∧ (1 / 2 : ℚ) < 50001 / 100000 ∧
    (50001 / 100000 : ℚ) < 1 ∧
    (grade_result (some "Ideal point: z = [0.0075, 1]")).1 = 139 / 25 ∧
    (grade_result (some "Ideal point: z = [0.00750005, 1]")).1 = 139 / 25 := by
  refine ⟨relErrEval_0075, relErrEval_00750005, by norm_num, by norm_num,
    by norm_num, ?_, ?_⟩
  · have h2 : parseFloat ((findAll "Ideal point: z = [0.0075, 1]"
        ).getLastD ("", "")).1 = some (3 / 400) := by
      have h : ((findAll "Ideal point: z = [0.0075, 1]"
          ).getLastD ("", "")).1 = "0.0075" := by decide
      rw [h]
      exact parseFloatEval_0075
    rw [grade_result_value _ _ (by decide) h2, relErrEval_0075, scoreEval_half]
  · have h2 : parseFloat ((findAll "Ideal point: z = [0.00750005, 1]"
        ).getLastD ("", "")).1 = some (150001 / 20000000) := by
      have h : ((findAll "Ideal point: z = [0.00750005, 1]"
          ).getLastD ("", "")).1 = "0.00750005" := by decide
      rw [h]
      exact parseFloatEval_00750005
    rw [grade_result_value _ _ (by decide) h2, relErrEval_00750005,
      scoreEval_half']

/-- C9 (amended): on `(0.10, 1.0)` the pre-rounding score is strictly
decreasing and continuous, tending to 10 at the left end and to 0 at the
right end; the reported score (after rounding to 2 decimal places) is
non-increasing there. -/
theorem C9_decay_monotone :
    (∀ e1 e2 : ℚ, 1 / 10 < e1 → e1 < e2 → e2 < 1 →
      rawScore e2 < rawScore e1) ∧
    (∀ e1 e2 : ℚ, 1 / 10 < e1 → e1 ≤ e2 → e2 < 1 →
      scoreOfError e2 ≤ scoreOfError e1) ∧
    (∀ e : ℚ, 1 / 10 < e → e < 1 → ∀ ε : ℚ, 0 < ε → ∃ δ : ℚ, 0 < δ ∧
      ∀ e' : ℚ, 1 / 10 < e' → e' < 1 → |e' - e| < δ →
        |rawScore e' - rawScore e| < ε) ∧
    (∀ ε : ℚ, 0 < ε → ∃ δ : ℚ, 0 < δ ∧
      ∀ e : ℚ, 1 / 10 < e → e < 1 → e < 1 / 10 + δ →
        |rawScore e - 10| < ε) ∧
    (∀ ε : ℚ, 0 < ε → ∃ δ : ℚ, 0 < δ ∧
      ∀ e : ℚ, 1 / 10 < e → e < 1 → 1 - δ < e → |rawScore e - 0| < ε) := by
  have hmid : ∀ e : ℚ, 1 / 10 < e → e < 1 →
      rawScore e = 10 - (100 / 9) * (e - 1 / 10) := fun e h1 h2 =>
    rawScore_mid h1 h2
  refine ⟨?_, ?_, ?_, ?_, ?_⟩
  · intro e1 e2 h1 h12 h2
    rw [hmid e1 h1 (h12.trans h2), hmid e2 (h1.trans h12) h2]
    linarith
  · intro e1 e2 h1 h12 h2
    rcases eq_or_lt_of_le h12 with rfl | hlt
    · exact le_refl _
    · have hraw : rawScore e2 ≤ rawScore e1 := by
        rw [hmid e1 h1 (hlt.trans h2), hmid e2 (h1.trans hlt) h2]
        linarith
      rw [scoreOfError, scoreOfError]
      exact roundTo2_mono hraw
  · intro e h1 h2 ε hε
    refine ⟨9 * ε / 200, by positivity, ?_⟩
    intro e' h1' h2' hd
    have key : rawScore e' - rawScore e = (100 / 9) * (e - e') := by
      rw [hmid e' h1' h2', hmid e h1 h2]
      ring
    have habs : |rawScore e' - rawScore e| = (100 / 9) * |e' - e| := by
      rw [key, abs_mul, abs_of_pos (by norm_num : (0 : ℚ) < 100 / 9),
        abs_sub_comm]
    rw [habs]
    have hb : (100 / 9 : ℚ) * |e' - e| < (100 / 9) * (9 * ε / 200) :=
      mul_lt_mul_of_pos_left hd (by norm_num)
    linarith
  · intro ε hε
    refine ⟨9 * ε / 200, by positivity, ?_⟩
    intro e h1 h2 hd
    rw [hmid e h1 h2]
    have habs : |10 - (100 / 9) * (e - 1 / 10) - 10| =
        (100 / 9) * (e - 1 / 10) := by
      rw [show (10 : ℚ) - (100 / 9) * (e - 1 / 10) - 10 =
          -((100 / 9) * (e - 1 / 10)) by ring, abs_neg,
        abs_of_nonneg (mul_nonneg (by norm_num) (by linarith))]
    rw [habs]
    nlinarith
  · intro ε hε
    refine ⟨9 * ε / 200, by positivity, ?_⟩
    intro e h1 h2 hd
    rw [hmid e h1 h2]
    have habs : |10 - (100 / 9) * (e - 1 / 10) - 0| =
        (100 / 9) * (1 - e) := by
      rw [show (10 : ℚ) - (100 / 9) * (e - 1 / 10) - 0 =
          (100 / 9) * (1 - e) by ring,
        abs_of_nonneg (mul_nonneg (by norm_num) (by linarith))]
    rw [habs]
    nlinarith

/-- Witness for C9 (amended): the pre-rounding score strictly decreases
from error 1/2 to error 3/4. -/
theorem C9_decay_monotone_witness :
    rawScore (1 / 2) = 50 / 9 ∧ rawScore (3 / 4) = 25 / 9 ∧
    rawScore (3 / 4) < rawScore (1 / 2) :=
  ⟨by norm_num [rawScore, TOLERANCE], by norm_num [rawScore, TOLERANCE],
    C9_decay_monotone.1 (1 / 2) (3 / 4) (by norm_num) (by norm_num)
      (by norm_num)⟩

/-- C10: the marker pattern captures only digits and dots: every captured
group of every match consists of `[0-9.]` characters; a line with a
negative or scientific-notation first number is never matched (graded as
marker-not-found), and an earlier plain-decimal match is used instead
when present. -/
theorem C10_digit_dot_groups :
    (∀ (out : String) (p : String × String), p ∈ findAll out →
      p.1.data.all digitOrDot = true ∧ p.2.data.all digitOrDot = true) ∧
    findAll "Ideal point: z = [-0.005, 0.1]" = [] ∧
    grade_result (some "Ideal point: z = [-0.005, 0.1]") = (0, noMarkerMsg) ∧
    findAll "Ideal point: z = [5e-3, 0.1]" = [] ∧
    findAll "Ideal point: z = [0.0075, 1]\nIdeal point: z = [-0.004, 1]" =
      [("0.0075", "1")] ∧
    (grade_result
      (some "Ideal point: z = [0.0075, 1]\nIdeal point: z = [-0.004, 1]")).1
      = 139 / 25 := by
  refine ⟨fun out p hp => findAllAux_groups _ _ p hp, by decide, by decide,
    by decide, by decide, ?_⟩
  have h2 : parseFloat ((findAll
      "Ideal point: z = [0.0075, 1]\nIdeal point: z = [-0.004, 1]"
      ).getLastD ("", "")).1 = some (3 / 400) := by
    have h : ((findAll
        "Ideal point: z = [0.0075, 1]\nIdeal point: z = [-0.004, 1]"
        ).getLastD ("", "")).1 = "0.0075" := by decide
    rw [h]
    exact parseFloatEval_0075
  rw [grade_result_value _ _ (by decide) h2, relErrEval_0075, scoreEval_half]

/-- Witness for C10 on the match `("1.5", "2")`. -/
theorem C10_digit_dot_groups_witness :
    ("1.5" : String).data.all digitOrDot = true ∧
    ("2" : String).data.all digitOrDot = true :=
  C10_digit_dot_groups.1 "Ideal point: z = [1.5, 2]" ("1.5", "2") (by decide)

end GradeHomework
